import Mathlib

/-!
Verification of the bulk order-import route (`app/routes/app._index.jsx`).

The repository file contains two successive versions of the same route
module (an earlier one starting at line 1 and a later one starting at
line 1207, which adds B2B-context resolution).  Where the two versions
differ in behaviour we embed both, with suffix `1` for the earlier
version and `2` for the later one; logic that is textually identical in
both versions is embedded once.

Modelling conventions:
* JS numbers that hold quantities are modelled as `Int` (the code only
  ever compares and adds them); `Number(...)` applied to a cell string is
  modelled by `jsNumberOfString`, a decimal-integer model of JS numeric
  string conversion (`none` models NaN / a non-finite result).
* JS falsy-string defaulting `a || b` is modelled by `jsOr` / `jsOrS`.
* Fallible external calls are oracles passed in as data: the catalog
  lookup outcome per SKU, the order-service call result, and the
  history-store write result.
* The external calls a `create` request performs are recorded as an
  event trace in source order.
-/

/-- One cell of the decoded spreadsheet grid, as handed over by
`sheet_to_json(sheet, {header: 1, defval: ""})`; cells are modelled by
their string view. -/
abbrev Cell := String

/-- JS `a || d` on an optional string (form values): `null`/missing and
the empty string are falsy. -/
def jsOr (a : Option String) (d : String) : String :=
  match a with
  | some s => if s = "" then d else s
  | none => d

/-- JS `a || d` on two strings: the empty string is falsy. -/
def jsOrS (a d : String) : String :=
  if a = "" then d else a

/-- JS `s.trim()` (ASCII-whitespace model), written over the character
list so it evaluates by kernel reduction. -/
def jsTrim (s : String) : String :=
  ⟨((s.data.dropWhile Char.isWhitespace).reverse.dropWhile Char.isWhitespace).reverse⟩

/-- JS `s.toLowerCase()` (ASCII model), written over the character
list. -/
def jsToLower (s : String) : String :=
  ⟨s.data.map Char.toLower⟩

/-- Value of a decimal digit character. -/
def digitVal (c : Char) : Option Nat :=
  if ('0' ≤ c && c ≤ '9') then some (c.toNat - '0'.toNat) else none

/-- Value of a non-empty all-digit character list. -/
def digitsVal (cs : List Char) : Option Nat :=
  match cs with
  | [] => none
  | _ =>
    cs.foldl
      (fun acc c =>
        match acc, digitVal c with
        | some n, some d => some (n * 10 + d)
        | _, _ => none)
      (some 0)

/-- Model of JS `Number(s)` for string cells, restricted to the decimal
integer literals the import format uses: the trimmed empty string is 0,
an optionally signed digit string is its value, anything else is NaN
(`none`).  The code only uses the result through
`Number.isFinite(q) && q > 0`, so NaN and infinities are identified. -/
def jsNumberOfString (s : String) : Option Int :=
  let t := jsTrim s
  if t = "" then some 0
  else
    match t.data with
    | '-' :: rest => (digitsVal rest).map (fun n => -(n : Int))
    | '+' :: rest => (digitsVal rest).map (fun n => (n : Int))
    | cs => (digitsVal cs).map (fun n => (n : Int))

/-- A reconciled/preview row, as built by the `process` intent and
round-tripped through `previewJson` for the `create` intent. -/
structure Row where
  sku : String
  productName : String
  exist : Bool
  availableQuantity : Int
  quantityRequested : Int
  fulfilledQuantity : Int
  status : String
  variantId : Option String
deriving Repr, DecidableEq

/-- A validated candidate line as the spec's CandidateRow: the sku and
requested quantity of one surviving data row. -/
structure CandidateRow where
  sku : String
  quantityRequested : Int
deriving Repr, DecidableEq

/-- The record pushed by the parsing loop for a surviving data row
(`parsedRows.push({...})` in the source). -/
def pendingRow (sku : String) (quantityRequested : Int) : Row :=
  { sku := sku
    productName := ""
    exist := false
    availableQuantity := 0
    quantityRequested := quantityRequested
    fulfilledQuantity := 0
    status := "pending"
    variantId := none }

/-- Header-cell normalization: `String(h).trim().toLowerCase()`. -/
def normalizeCell (s : String) : String := jsToLower (jsTrim s)

/-- Parse-stage failures of the `process` intent. -/
inductive ParseError
  | emptyFile
  | missingColumns
  | noValidRows
deriving Repr, DecidableEq

/-- The parsing loop over the data rows (`for (const row of dataRows)`),
with its two `continue`-skips: blank trimmed sku, and a quantity that is
not a positive finite number.  `row[i]` beyond the row's length is the
`defval` empty string. -/
def buildParsedRows (skuIdx qtyIdx : Nat) : List (List Cell) → List Row
  | [] => []
  | row :: rest =>
    let sku := jsTrim (row.getD skuIdx "")
    if sku = "" then buildParsedRows skuIdx qtyIdx rest
    else
      match jsNumberOfString (row.getD qtyIdx "") with
      | none => buildParsedRows skuIdx qtyIdx rest
      | some q =>
        if q ≤ 0 then buildParsedRows skuIdx qtyIdx rest
        else pendingRow sku q :: buildParsedRows skuIdx qtyIdx rest

/-- The header-driven grid parser of the `process` intent: first row is
the header; the sku column and the quantity column (synonym `qty`) are
located case-insensitively by exact normalized equality; data rows are
filtered by `buildParsedRows`. -/
def parseGrid (rows : List (List Cell)) : Except ParseError (List Row) :=
  match rows with
  | [] => .error .emptyFile
  | header :: dataRows =>
    let hnorm := header.map normalizeCell
    match hnorm.findIdx? (fun h => h == "sku"),
        hnorm.findIdx? (fun h => h == "quantity" || h == "qty") with
    | some skuIdx, some qtyIdx =>
      let parsed := buildParsedRows skuIdx qtyIdx dataRows
      if parsed = [] then .error .noValidRows else .ok parsed
    | _, _ => .error .missingColumns

/-- One `{name, quantity}` entry of a level's `quantities(names:
["available"])` list; `quantity = none` models a non-number value
(rejected by the `typeof === "number"` guard). -/
structure QuantityEntry where
  name : String
  quantity : Option Int
deriving Repr, DecidableEq

/-- One inventory level node. -/
structure InventoryLevel where
  quantities : List QuantityEntry
deriving Repr, DecidableEq

/-- A catalog variant node as returned by the `variantBySku` query;
`inventoryLevels` holds the level edges' nodes (`none` for a null
node). -/
structure VariantNode where
  id : String
  displayName : Option String
  productTitle : Option String
  inventoryLevels : List (Option InventoryLevel)
deriving Repr, DecidableEq

/-- A parsed GraphQL response body: its `errors` list and the
`data.productVariants.edges` nodes. -/
structure GraphQLResponse where
  errors : List String
  edges : List (Option VariantNode)
deriving Repr, DecidableEq

/-- Outcome of one catalog lookup: the call threw, or it returned a
parsed response body. -/
inductive LookupOutcome
  | threw
  | response (r : GraphQLResponse)
deriving Repr, DecidableEq

/-- Contribution of one level edge to `totalAvailable`: the first
`quantities` entry named `available`, when it carries a number;
otherwise 0. -/
def levelAvail : Option InventoryLevel → Int
  | none => 0
  | some lvl =>
    match lvl.quantities.find? (fun q => q.name == "available") with
    | some e => e.quantity.getD 0
    | none => 0

/-- The `totalAvailable` accumulation loop over the level edges. -/
def totalAvailableOf (levels : List (Option InventoryLevel)) : Int :=
  levels.foldl (fun acc l => acc + levelAvail l) 0

/-- Remove the first occurrence of `pat` from a character list
(JS `String.prototype.replace` with a string pattern). -/
def removeFirstAux (pat : List Char) : List Char → List Char
  | [] => []
  | c :: rest =>
    if pat.isPrefixOf (c :: rest) then (c :: rest).drop pat.length
    else c :: removeFirstAux pat rest

/-- JS `s.replace(pat, "")` for a plain string pattern: removes the
first occurrence only. -/
def removeFirst (s pat : String) : String :=
  ⟨removeFirstAux pat.data s.data⟩

/-- The product display name of a matched row:
`displayName || product?.title ||` the synthesized sku fallback, with the first
occurrence of the boilerplate suffix removed. -/
def productNameOf (v : VariantNode) (sku : String) : String :=
  removeFirst (jsOr v.displayName (jsOr v.productTitle ("SKU " ++ sku)))
    " - Default Title"

/-- The row pushed when the lookup throws (both versions) or, in the
earlier version only, when the response body carries GraphQL errors. -/
def errorRow (r : Row) : Row :=
  { r with
    exist := false
    productName := "* * * * * * *"
    availableQuantity := 0
    fulfilledQuantity := 0
    status := "error"
    variantId := none }

/-- The row pushed when the catalog returns no matching variant. -/
def skuNotFoundRow (r : Row) : Row :=
  { r with
    exist := false
    productName := "* * * * * * *"
    availableQuantity := 0
    fulfilledQuantity := 0
    status := "sku not found"
    variantId := none }

/-- The row pushed for a successful catalog match: sums availability and
classifies fulfillment by the source's if-chain (no stock / partial /
ok).  This block is textually identical in both versions. -/
def matchedRow (r : Row) (v : VariantNode) : Row :=
  let totalAvailable := totalAvailableOf v.inventoryLevels
  let fulfilledQuantity :=
    if totalAvailable ≤ 0 then 0
    else if r.quantityRequested > totalAvailable then totalAvailable
    else r.quantityRequested
  let status :=
    if totalAvailable ≤ 0 then "no stock"
    else if r.quantityRequested > totalAvailable then "partial"
    else "ok"
  { r with
    exist := true
    productName := productNameOf v r.sku
    availableQuantity := totalAvailable
    fulfilledQuantity := fulfilledQuantity
    status := status
    variantId := some v.id }

/-- Enrichment of one parsed row in the earlier version: a thrown
lookup and an error-bearing response body both produce the error row;
otherwise the first edge's node decides between not-found and match. -/
def enrichRow1 (r : Row) (out : LookupOutcome) : Row :=
  match out with
  | .threw => errorRow r
  | .response resp =>
    if resp.errors ≠ [] then errorRow r
    else
      match resp.edges with
      | some v :: _ => matchedRow r v
      | _ => skuNotFoundRow r

/-- Enrichment of one parsed row in the later version: GraphQL errors in
the response body are only logged; classification uses the response
data alone. -/
def enrichRow2 (r : Row) (out : LookupOutcome) : Row :=
  match out with
  | .threw => errorRow r
  | .response resp =>
    match resp.edges with
    | some v :: _ => matchedRow r v
    | _ => skuNotFoundRow r

/-- The sequential enrichment loop of the earlier version: one pushed
row per parsed row, in order, each from its own lookup outcome. -/
def enrichAll1 (cat : String → LookupOutcome) : List Row → List Row
  | [] => []
  | r :: rest => enrichRow1 r (cat r.sku) :: enrichAll1 cat rest

/-- The sequential enrichment loop of the later version. -/
def enrichAll2 (cat : String → LookupOutcome) : List Row → List Row
  | [] => []
  | r :: rest => enrichRow2 r (cat r.sku) :: enrichAll2 cat rest

/-- The inclusion predicate of the `create` intent:
`row.exist && row.variantId && Number(row.fulfilledQuantity || 0) > 0`
(a null or empty-string `variantId` is falsy). -/
def includable (r : Row) : Bool :=
  r.exist &&
    (match r.variantId with
     | some v => v != ""
     | none => false) &&
    decide (0 < r.fulfilledQuantity)

/-- `includedRows`: the rows that will actually be added to the order. -/
def includedRowsOf (rows : List Row) : List Row :=
  rows.filter includable

/-- The `totalQuantity` reduce over the included rows. -/
def totalQuantityOf (rows : List Row) : Int :=
  (includedRowsOf rows).foldl (fun sum r => sum + r.fulfilledQuantity) 0

/-- One order line sent to the order-creation service. -/
structure LineItem where
  quantity : Int
  variantId : Option String
deriving Repr, DecidableEq

/-- The `lineItems` map over the included rows. -/
def lineItemsOf (rows : List Row) : List LineItem :=
  (includedRowsOf rows).map
    (fun r => { quantity := r.fulfilledQuantity, variantId := r.variantId })

/-- Splitting helper for `splitOnSlash`. -/
def splitCharsAux (p : Char → Bool) : List Char → List Char → List (List Char)
  | [], acc => [acc.reverse]
  | c :: rest, acc =>
    if p c then acc.reverse :: splitCharsAux p rest []
    else splitCharsAux p rest (c :: acc)

/-- JS `s.split("/")`, written over the character list. -/
def splitOnSlash (s : String) : List String :=
  (splitCharsAux (fun c => c = '/') s.data []).map (fun l => ⟨l⟩)

/-- The numeric part of a Shopify GID:
`gid.startsWith("gid://") ? gid.split("/").pop() : gid`. -/
def numericIdOf (gid : String) : String :=
  if "gid://".data.isPrefixOf gid.data then ((splitOnSlash gid).getLast?).getD ""
  else gid

/-- The templated order note. -/
def noteOf (customerName customerNumericId : String) : String :=
  "Bulk upload for customer: " ++ customerName ++
    " (Shopify customer ID: " ++ customerNumericId ++ ")"

/-- The round-tripped preview rows of a `create` request: `previewJson`
must be a non-empty string and parse as JSON; a parse failure is caught
and leaves the empty list.  `jparse` is the JSON-parse oracle (`none`
models a `JSON.parse` throw). -/
def roundTrippedRows (jparse : String → Option (List Row))
    (previewJson : Option String) : List Row :=
  match previewJson with
  | none => []
  | some s => if s.length = 0 then [] else (jparse s).getD []

/-- The draft-order descriptor returned by the order-creation service. -/
structure DraftOrder where
  id : String
  legacyResourceId : Option String
  name : Option String
deriving Repr, DecidableEq

/-- Result of the `DraftOrderCreate` fetch: the fetch threw, the
transport status was non-2xx, the body was not JSON, or a parsed body
with its `success` flag, optional `draftOrder` and optional `error`
message (a null body behaves as `payload false none none`). -/
inductive OCResult
  | fetchThrew (msg : String)
  | httpError (status : Nat) (statusText : String)
  | invalidJson (msg : String)
  | payload (success : Bool) (draftOrder : Option DraftOrder) (errMsg : Option String)
deriving Repr, DecidableEq

/-- The try-block around the order-creation call, as the thrown error
message or the obtained draft order.  A non-ok transport response
throws `OC HTTP error <status> <statusText>`; a body without a truthy
`success` and `draftOrder` throws `ocJson?.error ||` the fixed
message. -/
def ocCallResult : OCResult → Except String DraftOrder
  | .fetchThrew msg => .error msg
  | .httpError status statusText =>
    .error ("OC HTTP error " ++ toString status ++ " " ++ statusText)
  | .invalidJson msg => .error msg
  | .payload success draftOrder errMsg =>
    if success then
      match draftOrder with
      | some d => .ok d
      | none => .error (jsOr errMsg "Invalid response from Shopify GraphQL")
    else .error (jsOr errMsg "Invalid response from Shopify GraphQL")

/-- The B2B context resolved by the later version (each field may be
null). -/
structure B2BContext where
  companyId : Option String
  companyLocationId : Option String
  companyContactId : Option String
deriving Repr, DecidableEq

/-- Results of the external collaborators during one `create` request:
the resolved numeric shop id (null on failure), the resolved B2B
context (later version only), the order-service call result, and
whether the history-store write succeeds (`false` models a throwing
write, which the source catches and only logs). -/
structure CreateEnv where
  shopNumericId : Option String
  b2b : B2BContext
  oc : OCResult
  dbWriteOk : Bool
deriving Repr, DecidableEq

/-- External calls attempted by a `create` request, in source order. -/
inductive Ev
  | b2bLookup
  | shopIdLookup
  | draftOrderCreate
  | historyWrite
deriving Repr, DecidableEq

/-- The payload posted to `DraftOrderCreate` by the earlier version. -/
structure OrderPayload where
  shop_id : Option String
  customerId : String
  customerName : String
  lineItems : List LineItem
  note : String
  totalQuantity : Int
deriving Repr, DecidableEq

/-- The payload posted to `DraftOrderCreate` by the later version,
which adds the B2B context fields. -/
structure OrderPayload2 where
  shop_id : Option String
  customerId : String
  customerName : String
  lineItems : List LineItem
  note : String
  totalQuantity : Int
  companyId : Option String
  companyLocationId : Option String
  companyContactId : Option String
deriving Repr, DecidableEq

/-- What a `create` request returns to the caller. -/
inductive CreateOutcome
  | errorResult (error : String) (customerName : String)
      (customerId : String) (previewRows : List Row)
  | redirect (url : String)
deriving Repr, DecidableEq

/-- Observable result of one `create` request: the external calls it
attempted, the payload it posted to the order service (when it got that
far), and the returned outcome. -/
structure CreateResult (α : Type) where
  events : List Ev
  sent : Option α
  outcome : CreateOutcome
deriving Repr, DecidableEq

/-- The no-includable-rows error message. -/
def nothingToOrderMsg : String :=
  "No rows with available inventory to create a draft order. Please check the preview."

/-- The order-service failure message:
`"Failed to create draft order via external service. " + (err.message || ...)`. -/
def ocFailureMsg (m : String) : String :=
  "Failed to create draft order via external service. " ++
    jsOrS m "Please check the uploaded data."

/-- Hex digit character (uppercase, as `encodeURIComponent` emits). -/
def hexDigitChar (n : Nat) : Char :=
  if n < 10 then Char.ofNat (48 + n) else Char.ofNat (55 + n)

/-- UTF-8 bytes of one character. -/
def utf8BytesOfChar (c : Char) : List Nat :=
  let n := c.toNat
  if n < 128 then [n]
  else if n < 2048 then [192 + n / 64, 128 + n % 64]
  else if n < 65536 then [224 + n / 4096, 128 + (n / 64) % 64, 128 + n % 64]
  else [240 + n / 262144, 128 + (n / 4096) % 64, 128 + (n / 64) % 64, 128 + n % 64]

/-- Characters `encodeURIComponent` leaves unescaped. -/
def uriUnreserved (c : Char) : Bool :=
  ('A' ≤ c && c ≤ 'Z') || ('a' ≤ c && c ≤ 'z') || ('0' ≤ c && c ≤ '9') ||
    c = '-' || c = '_' || c = '.' || c = '!' || c = '~' || c = '*' ||
    c = '\'' || c = '(' || c = ')'

/-- JS `encodeURIComponent`. -/
def encodeURIComponent (s : String) : String :=
  s.data.foldl
    (fun acc c =>
      if uriUnreserved c then acc.push c
      else
        (utf8BytesOfChar c).foldl
          (fun a b => a ++ ⟨['%', hexDigitChar (b / 16), hexDigitChar (b % 16)]⟩)
          acc)
    ""

/-- The success redirect URL, carrying
`realOrderName || realOrderLegacyId || realOrderId`. -/
def successRedirectUrl (d : DraftOrder) : String :=
  "/app?createdOrderName=" ++
    encodeURIComponent (jsOrS (d.name.getD "") (jsOrS (d.legacyResourceId.getD "") d.id))

/-- The `create` intent of the earlier version (source lines 423-587):
resolve the shop id, parse the round-tripped rows, filter to includable
rows (failing with the nothing-to-order error when none remain), build
and post the order payload, and on success attempt one history write —
whose failure is caught — before redirecting. -/
def createAction1 (jparse : String → Option (List Row)) (env : CreateEnv)
    (customerNameForm customerIdForm previewJson : Option String) :
    CreateResult OrderPayload :=
  let customerName := jsOr customerNameForm "Unknown Customer"
  let customerIdRaw := jsOr customerIdForm ""
  let customerGid := jsOrS customerIdRaw ""
  let customerNumericId := numericIdOf customerGid
  let previewRows := roundTrippedRows jparse previewJson
  let included := includedRowsOf previewRows
  if included.length = 0 then
    { events := [Ev.shopIdLookup]
      sent := none
      outcome := .errorResult nothingToOrderMsg customerName customerIdRaw previewRows }
  else
    let payload : OrderPayload :=
      { shop_id := env.shopNumericId
        customerId := customerGid
        customerName := customerName
        lineItems := lineItemsOf previewRows
        note := noteOf customerName customerNumericId
        totalQuantity := totalQuantityOf previewRows }
    match ocCallResult env.oc with
    | .error m =>
      { events := [Ev.shopIdLookup, Ev.draftOrderCreate]
        sent := some payload
        outcome := .errorResult (ocFailureMsg m) customerName customerIdRaw previewRows }
    | .ok d =>
      { events := [Ev.shopIdLookup, Ev.draftOrderCreate, Ev.historyWrite]
        sent := some payload
        outcome := .redirect (successRedirectUrl d) }

/-- The events of the later version's `getB2BContext`: with an empty
customer GID it returns early without calling the catalog. -/
def b2bEvents (customerGid : String) : List Ev :=
  if customerGid = "" then [] else [Ev.b2bLookup]

/-- The `create` intent of the later version (source lines 1684-1855):
as `createAction1`, but the B2B context is resolved first and its
fields travel in the payload. -/
def createAction2 (jparse : String → Option (List Row)) (env : CreateEnv)
    (customerNameForm customerIdForm previewJson : Option String) :
    CreateResult OrderPayload2 :=
  let customerName := jsOr customerNameForm "Unknown Customer"
  let customerIdRaw := jsOr customerIdForm ""
  let customerGid := jsOrS customerIdRaw ""
  let customerNumericId := numericIdOf customerGid
  let pre := b2bEvents customerGid ++ [Ev.shopIdLookup]
  let previewRows := roundTrippedRows jparse previewJson
  let included := includedRowsOf previewRows
  if included.length = 0 then
    { events := pre
      sent := none
      outcome := .errorResult nothingToOrderMsg customerName customerIdRaw previewRows }
  else
    let payload : OrderPayload2 :=
      { shop_id := env.shopNumericId
        customerId := customerGid
        customerName := customerName
        lineItems := lineItemsOf previewRows
        note := noteOf customerName customerNumericId
        totalQuantity := totalQuantityOf previewRows
        companyId := env.b2b.companyId
        companyLocationId := env.b2b.companyLocationId
        companyContactId := env.b2b.companyContactId }
    match ocCallResult env.oc with
    | .error m =>
      { events := pre ++ [Ev.draftOrderCreate]
        sent := some payload
        outcome := .errorResult (ocFailureMsg m) customerName customerIdRaw previewRows }
    | .ok d =>
      { events := pre ++ [Ev.draftOrderCreate, Ev.historyWrite]
        sent := some payload
        outcome := .redirect (successRedirectUrl d) }

/-! ### Claim-side definitions (stated from the claims' words) -/

/-- Claim C1's classification: the asserted total function of
(requested, available). -/
def specFulfillment (requested available : Int) : Int × String :=
  if available ≤ 0 then (0, "no stock")
  else if requested > available then (available, "partial")
  else (requested, "ok")

/-- Claim C3's per-data-row survival rule: keep a data row iff its sku
cell is non-blank after trimming and its quantity cell is a positive
finite number; the surviving candidate is the trimmed sku with that
quantity. -/
def keepRow (skuIdx qtyIdx : Nat) (row : List Cell) : Option CandidateRow :=
  let sku := jsTrim (row.getD skuIdx "")
  if sku = "" then none
  else
    match jsNumberOfString (row.getD qtyIdx "") with
    | none => none
    | some q => if 0 < q then some ⟨sku, q⟩ else none

/-- Claim C9's data-model invariant for a reconciled row. -/
def reconciledInvariant (r : Row) : Prop :=
  0 ≤ r.availableQuantity
  ∧ 0 ≤ r.fulfilledQuantity
  ∧ r.fulfilledQuantity ≤ min r.quantityRequested r.availableQuantity
  ∧ (0 < r.fulfilledQuantity → r.exist = true ∧ (r.status = "ok" ∨ r.status = "partial"))

instance (r : Row) : Decidable (reconciledInvariant r) := by
  unfold reconciledInvariant; infer_instance

/-- The inventory-level list a lookup outcome would hand to the matched
path (empty when no variant is returned). -/
def lookupLevels : LookupOutcome → List (Option InventoryLevel)
  | .threw => []
  | .response resp =>
    match resp.edges with
    | some v :: _ => v.inventoryLevels
    | _ => []

/-! ### Helper lemmas -/

theorem enrichAll1_eq_map (cat : String → LookupOutcome) (rows : List Row) :
    enrichAll1 cat rows = rows.map (fun r => enrichRow1 r (cat r.sku)) := by
  induction rows with
  | nil => rfl
  | cons r rest ih => simp [enrichAll1, ih]

theorem buildParsedRows_eq_filterMap (skuIdx qtyIdx : Nat) (l : List (List Cell)) :
    buildParsedRows skuIdx qtyIdx l =
      (l.filterMap (keepRow skuIdx qtyIdx)).map
        (fun c => pendingRow c.sku c.quantityRequested) := by
  induction l with
  | nil => rfl
  | cons row rest ih =>
    by_cases hsku : jsTrim (row[skuIdx]?.getD "") = ""
    · simp [buildParsedRows, keepRow, hsku, ih]
    · cases hq : jsNumberOfString (row[qtyIdx]?.getD "") with
      | none => simp [buildParsedRows, keepRow, hsku, hq, ih]
      | some q =>
        by_cases hpos : q ≤ 0
        · have hnp : ¬ (0 < q) := by omega
          simp [buildParsedRows, keepRow, hsku, hq, hpos, hnp, ih]
        · have hp : 0 < q := by omega
          simp [buildParsedRows, keepRow, hsku, hq, hpos, hp, ih]

theorem foldl_add_fulfilled (l : List Row) (a : Int) :
    l.foldl (fun sum r => sum + r.fulfilledQuantity) a =
      a + (l.map (fun r => r.fulfilledQuantity)).sum := by
  induction l generalizing a with
  | nil => simp
  | cons r rest ih => simp [ih, add_assoc]

theorem includable_iff (r : Row) :
    includable r = true ↔
      r.exist = true ∧ (∃ v, r.variantId = some v ∧ v ≠ "") ∧ 0 < r.fulfilledQuantity := by
  cases hv : r.variantId with
  | none => simp [includable, hv]
  | some v =>
    by_cases h : v = "" <;> simp [includable, hv, h, and_assoc]

/-! ### Claims -/

/-- Claim C1: for every reconciled row produced by enrichment from a
successful catalog match (in either version of the route), the pair
(fulfilledQuantity, status) is the total function of
(quantityRequested, totalAvailable) given by: available ≤ 0 →
(0, no stock); requested > available → (available, partial);
otherwise (requested, ok). -/
theorem c1_fulfillment_classification (r : Row) (v : VariantNode)
    (es : List (Option VariantNode)) (errs : List String) :
    ((enrichRow1 r (.response { errors := [], edges := some v :: es })).fulfilledQuantity,
      (enrichRow1 r (.response { errors := [], edges := some v :: es })).status) =
      specFulfillment r.quantityRequested (totalAvailableOf v.inventoryLevels)
    ∧ ((enrichRow2 r (.response { errors := errs, edges := some v :: es })).fulfilledQuantity,
        (enrichRow2 r (.response { errors := errs, edges := some v :: es })).status) =
      specFulfillment r.quantityRequested (totalAvailableOf v.inventoryLevels) := by
  constructor <;>
    · simp only [enrichRow1, enrichRow2, matchedRow, specFulfillment]
      split_ifs <;> simp_all

/-- Claim C2: a row is submitted on the order iff `exist` is true, the
variant id is non-null and non-empty, and the fulfilled quantity is
positive; the line items are exactly one (variantId, fulfilledQuantity)
entry per such row, in order; and totalQuantity is the sum of the
fulfilled quantities over those rows. -/
theorem c2_inclusion_and_totals (rows : List Row) :
    (∀ r : Row, r ∈ includedRowsOf rows ↔
      r ∈ rows ∧ r.exist = true ∧ (∃ v, r.variantId = some v ∧ v ≠ "") ∧
        0 < r.fulfilledQuantity)
    ∧ lineItemsOf rows =
      (includedRowsOf rows).map
        (fun r => { quantity := r.fulfilledQuantity, variantId := r.variantId })
    ∧ totalQuantityOf rows =
      ((includedRowsOf rows).map (fun r => r.fulfilledQuantity)).sum := by
  refine ⟨fun r => ?_, rfl, ?_⟩
  · rw [includedRowsOf, List.mem_filter, includable_iff]
  · rw [totalQuantityOf, foldl_add_fulfilled, zero_add]

/-- The grid of the claim's concrete instance. -/
def demoGrid : List (List Cell) :=
  [["SKU", "Quantity"],
   ["ABC123", "5"],
   ["", "3"],
   ["XYZ999", "-1"],
   ["DEF000", "0"],
   ["GHI111", "2"]]

/-- Claim C3: for a grid whose normalized header locates a sku column
and a quantity/qty column, parsing emits exactly one candidate per data
row surviving `keepRow` (non-blank trimmed sku, positive finite
quantity), silently skipping the rest and preserving input order, as
long as at least one row survives; in particular the demo grid yields
exactly (ABC123, 5) then (GHI111, 2). -/
theorem c3_header_driven_parsing (header : List Cell) (dataRows : List (List Cell))
    (skuIdx qtyIdx : Nat)
    (hs : (header.map normalizeCell).findIdx? (fun h => h == "sku") = some skuIdx)
    (hq : (header.map normalizeCell).findIdx? (fun h => h == "quantity" || h == "qty")
      = some qtyIdx)
    (hne : dataRows.filterMap (keepRow skuIdx qtyIdx) ≠ []) :
    parseGrid (header :: dataRows) =
      .ok ((dataRows.filterMap (keepRow skuIdx qtyIdx)).map
        (fun c => pendingRow c.sku c.quantityRequested))
    ∧ parseGrid demoGrid = .ok [pendingRow "ABC123" 5, pendingRow "GHI111" 2] := by
  constructor
  · have hb := buildParsedRows_eq_filterMap skuIdx qtyIdx dataRows
    have hmapne : (dataRows.filterMap (keepRow skuIdx qtyIdx)).map
        (fun c => pendingRow c.sku c.quantityRequested) ≠ [] := by
      simpa using hne
    simp only [parseGrid, hs, hq, hb]
    rw [if_neg hmapne]
  · rfl

/-- Witness for C3 at the demo grid. -/
theorem c3_header_driven_parsing_witness :
    parseGrid (["SKU", "Quantity"] ::
        [["ABC123", "5"], ["", "3"], ["XYZ999", "-1"], ["DEF000", "0"], ["GHI111", "2"]]) =
      .ok (([["ABC123", "5"], ["", "3"], ["XYZ999", "-1"], ["DEF000", "0"],
          ["GHI111", "2"]].filterMap (keepRow 0 1)).map
        (fun c => pendingRow c.sku c.quantityRequested))
    ∧ parseGrid demoGrid = .ok [pendingRow "ABC123" 5, pendingRow "GHI111" 2] :=
  c3_header_driven_parsing ["SKU", "Quantity"]
    [["ABC123", "5"], ["", "3"], ["XYZ999", "-1"], ["DEF000", "0"], ["GHI111", "2"]]
    0 1 (by rfl) (by rfl) (by decide)

/-- Claim C4: reconciliation yields a same-length output in the same
order regardless of individual lookup outcomes; each position is
determined by its own row and that row's lookup alone, and a throwing
or error-bearing lookup marks its own row with the error status without
aborting the rest. -/
theorem c4_row_isolation (cat : String → LookupOutcome) (rows : List Row)
    (i : Nat) (r : Row) (h : rows[i]? = some r) :
    (enrichAll1 cat rows).length = rows.length
    ∧ (enrichAll1 cat rows)[i]? = some (enrichRow1 r (cat r.sku))
    ∧ (cat r.sku = .threw → (enrichRow1 r (cat r.sku)).status = "error")
    ∧ (∀ resp : GraphQLResponse, cat r.sku = .response resp → resp.errors ≠ [] →
        (enrichRow1 r (cat r.sku)).status = "error") := by
  refine ⟨?_, ?_, ?_, ?_⟩
  · rw [enrichAll1_eq_map, List.length_map]
  · rw [enrichAll1_eq_map, List.getElem?_map, h]
    rfl
  · intro ht
    rw [ht]
    rfl
  · intro resp hresp herr
    rw [hresp]
    simp only [enrichRow1, if_pos herr]
    rfl

/-- Witness for C4: a two-row batch where the second row's lookup
throws. -/
theorem c4_row_isolation_witness :
    (enrichAll1
        (fun s => if s = "XYZ999" then .threw
          else .response { errors := [], edges := [] })
        [pendingRow "ABC123" 5, pendingRow "XYZ999" 1]).length = 2
    ∧ (enrichAll1
        (fun s => if s = "XYZ999" then .threw
          else .response { errors := [], edges := [] })
        [pendingRow "ABC123" 5, pendingRow "XYZ999" 1])[1]? =
      some (enrichRow1 (pendingRow "XYZ999" 1)
        ((fun s => if s = "XYZ999" then LookupOutcome.threw
          else .response { errors := [], edges := [] }) (pendingRow "XYZ999" 1).sku))
    ∧ ((fun s => if s = "XYZ999" then LookupOutcome.threw
          else .response { errors := [], edges := [] }) (pendingRow "XYZ999" 1).sku
        = .threw →
        (enrichRow1 (pendingRow "XYZ999" 1)
          ((fun s => if s = "XYZ999" then LookupOutcome.threw
            else .response { errors := [], edges := [] })
            (pendingRow "XYZ999" 1).sku)).status = "error")
    ∧ (∀ resp : GraphQLResponse,
        (fun s => if s = "XYZ999" then LookupOutcome.threw
          else .response { errors := [], edges := [] }) (pendingRow "XYZ999" 1).sku
          = .response resp → resp.errors ≠ [] →
        (enrichRow1 (pendingRow "XYZ999" 1)
          ((fun s => if s = "XYZ999" then LookupOutcome.threw
            else .response { errors := [], edges := [] })
            (pendingRow "XYZ999" 1).sku)).status = "error") := by
  have hm : ([pendingRow "ABC123" 5, pendingRow "XYZ999" 1])[1]? =
      some (pendingRow "XYZ999" 1) := by rfl
  simpa using c4_row_isolation
    (fun s => if s = "XYZ999" then .threw else .response { errors := [], edges := [] })
    [pendingRow "ABC123" 5, pendingRow "XYZ999" 1] 1 (pendingRow "XYZ999" 1) hm

/-- Claim C5 as stated is false on the later version of the route: an
error-bearing GraphQL response is only logged there, and with no
variant in the response data the row receives the same status as a
confirmed absence (`sku not found`), not the lookup-error status. -/
theorem c5_counterexample :
    (enrichRow2 (pendingRow "ABC123" 5)
        (.response { errors := ["internal error"], edges := [] })).status = "sku not found"
    ∧ ("sku not found" : String) ≠ "error" :=
  ⟨rfl, by decide⟩

/-- Claim C5 amended: a thrown lookup yields the `error` status in both
versions, distinct from the `sku not found` status of a successful
empty result; an error-bearing GraphQL response yields `error` in the
earlier version only — the later version logs the errors and
classifies the row from the response data alone, so with no variant it
is marked `sku not found`. -/
theorem c5_amended (r : Row) (resp : GraphQLResponse) (h : resp.errors ≠ []) :
    (enrichRow1 r .threw).status = "error"
    ∧ (enrichRow2 r .threw).status = "error"
    ∧ (enrichRow1 r (.response resp)).status = "error"
    ∧ (resp.edges = [] → (enrichRow2 r (.response resp)).status = "sku not found")
    ∧ (enrichRow1 r (.response { errors := [], edges := [] })).status = "sku not found"
    ∧ (enrichRow2 r (.response { errors := [], edges := [] })).status = "sku not found"
    ∧ ("error" : String) ≠ "sku not found" := by
  obtain ⟨errs, edges⟩ := resp
  refine ⟨rfl, rfl, ?_, ?_, rfl, rfl, by decide⟩
  · simp only [enrichRow1, if_pos h]
    rfl
  · intro he
    simp only at he
    subst he
    rfl

/-- Witness for C5 amended, at a concrete row and error response. -/
theorem c5_amended_witness :
    (enrichRow1 (pendingRow "ABC123" 5) .threw).status = "error"
    ∧ (enrichRow2 (pendingRow "ABC123" 5) .threw).status = "error"
    ∧ (enrichRow1 (pendingRow "ABC123" 5)
        (.response { errors := ["internal error"], edges := [] })).status = "error"
    ∧ (GraphQLResponse.edges { errors := ["internal error"], edges := [] } = [] →
        (enrichRow2 (pendingRow "ABC123" 5)
          (.response { errors := ["internal error"], edges := [] })).status = "sku not found")
    ∧ (enrichRow1 (pendingRow "ABC123" 5)
        (.response { errors := [], edges := [] })).status = "sku not found"
    ∧ (enrichRow2 (pendingRow "ABC123" 5)
        (.response { errors := [], edges := [] })).status = "sku not found"
    ∧ ("error" : String) ≠ "sku not found" :=
  c5_amended (pendingRow "ABC123" 5) { errors := ["internal error"], edges := [] }
    (by decide)

/-! ### Reductions of the create actions -/

theorem createAction1_nothing (jparse : String → Option (List Row)) (env : CreateEnv)
    (cn ci pj : Option String)
    (h : includedRowsOf (roundTrippedRows jparse pj) = []) :
    createAction1 jparse env cn ci pj =
      { events := [Ev.shopIdLookup]
        sent := none
        outcome := .errorResult nothingToOrderMsg (jsOr cn "Unknown Customer")
          (jsOr ci "") (roundTrippedRows jparse pj) } := by
  simp [createAction1, h]

theorem createAction2_nothing (jparse : String → Option (List Row)) (env : CreateEnv)
    (cn ci pj : Option String)
    (h : includedRowsOf (roundTrippedRows jparse pj) = []) :
    createAction2 jparse env cn ci pj =
      { events := b2bEvents (jsOrS (jsOr ci "") "") ++ [Ev.shopIdLookup]
        sent := none
        outcome := .errorResult nothingToOrderMsg (jsOr cn "Unknown Customer")
          (jsOr ci "") (roundTrippedRows jparse pj) } := by
  simp [createAction2, h]

theorem not_mem_b2bPre (g : String) (e : Ev) (h1 : e ≠ Ev.b2bLookup)
    (h2 : e ≠ Ev.shopIdLookup) : e ∉ b2bEvents g ++ [Ev.shopIdLookup] := by
  by_cases hg : g = "" <;> simp [b2bEvents, hg, h1, h2]

/-- Claim C6 as stated is false: with zero includable rows the
nothing-to-order error is indeed returned and no order-creation call is
made, but external calls do precede the check — the shop-id lookup in
both versions, and additionally the B2B-context lookup in the later
version. -/
theorem c6_counterexample :
    (createAction2 (fun _ => some [])
        { shopNumericId := some "77", b2b := ⟨none, none, none⟩,
          oc := .payload true none none, dbWriteOk := true }
        (some "Alice") (some "gid://shopify/Customer/5") (some "[]")).events =
      [Ev.b2bLookup, Ev.shopIdLookup]
    ∧ (createAction2 (fun _ => some [])
        { shopNumericId := some "77", b2b := ⟨none, none, none⟩,
          oc := .payload true none none, dbWriteOk := true }
        (some "Alice") (some "gid://shopify/Customer/5") (some "[]")).outcome =
      .errorResult nothingToOrderMsg "Alice" "gid://shopify/Customer/5" []
    ∧ (createAction1 (fun _ => some [])
        { shopNumericId := some "77", b2b := ⟨none, none, none⟩,
          oc := .payload true none none, dbWriteOk := true }
        (some "Alice") (some "gid://shopify/Customer/5") (some "[]")).events =
      [Ev.shopIdLookup]
    ∧ ([Ev.b2bLookup, Ev.shopIdLookup] : List Ev) ≠ [] := by
  refine ⟨rfl, rfl, rfl, by decide⟩

/-- Claim C6 amended: with zero includable rows both versions return
the nothing-to-order error before posting anything to the order
service and without touching the history store; the shop-id lookup
(and, in the later version, the B2B-context lookup) still run before
the check. -/
theorem c6_amended (jparse : String → Option (List Row)) (env : CreateEnv)
    (cn ci pj : Option String)
    (h : includedRowsOf (roundTrippedRows jparse pj) = []) :
    (createAction1 jparse env cn ci pj).outcome =
      .errorResult nothingToOrderMsg (jsOr cn "Unknown Customer")
        (jsOr ci "") (roundTrippedRows jparse pj)
    ∧ (createAction1 jparse env cn ci pj).sent = none
    ∧ Ev.draftOrderCreate ∉ (createAction1 jparse env cn ci pj).events
    ∧ Ev.historyWrite ∉ (createAction1 jparse env cn ci pj).events
    ∧ (createAction1 jparse env cn ci pj).events = [Ev.shopIdLookup]
    ∧ (createAction2 jparse env cn ci pj).outcome =
      .errorResult nothingToOrderMsg (jsOr cn "Unknown Customer")
        (jsOr ci "") (roundTrippedRows jparse pj)
    ∧ (createAction2 jparse env cn ci pj).sent = none
    ∧ Ev.draftOrderCreate ∉ (createAction2 jparse env cn ci pj).events
    ∧ Ev.historyWrite ∉ (createAction2 jparse env cn ci pj).events := by
  rw [createAction1_nothing jparse env cn ci pj h, createAction2_nothing jparse env cn ci pj h]
  refine ⟨rfl, rfl, by simp, by simp, rfl, rfl, rfl, ?_, ?_⟩
  · exact not_mem_b2bPre _ _ (by decide) (by decide)
  · exact not_mem_b2bPre _ _ (by decide) (by decide)

/-- Witness for C6 amended, at a concrete environment with an empty
round-tripped row set. -/
theorem c6_amended_witness :
    (createAction1 (fun _ => some [])
        { shopNumericId := some "77", b2b := ⟨none, none, none⟩,
          oc := .payload true none none, dbWriteOk := true }
        (some "Alice") (some "gid://shopify/Customer/5") (some "[]")).outcome =
      .errorResult nothingToOrderMsg (jsOr (some "Alice") "Unknown Customer")
        (jsOr (some "gid://shopify/Customer/5") "")
        (roundTrippedRows (fun _ => some []) (some "[]"))
    ∧ (createAction1 (fun _ => some [])
        { shopNumericId := some "77", b2b := ⟨none, none, none⟩,
          oc := .payload true none none, dbWriteOk := true }
        (some "Alice") (some "gid://shopify/Customer/5") (some "[]")).sent = none
    ∧ Ev.draftOrderCreate ∉ (createAction1 (fun _ => some [])
        { shopNumericId := some "77", b2b := ⟨none, none, none⟩,
          oc := .payload true none none, dbWriteOk := true }
        (some "Alice") (some "gid://shopify/Customer/5") (some "[]")).events
    ∧ Ev.historyWrite ∉ (createAction1 (fun _ => some [])
        { shopNumericId := some "77", b2b := ⟨none, none, none⟩,
          oc := .payload true none none, dbWriteOk := true }
        (some "Alice") (some "gid://shopify/Customer/5") (some "[]")).events
    ∧ (createAction1 (fun _ => some [])
        { shopNumericId := some "77", b2b := ⟨none, none, none⟩,
          oc := .payload true none none, dbWriteOk := true }
        (some "Alice") (some "gid://shopify/Customer/5") (some "[]")).events =
      [Ev.shopIdLookup]
    ∧ (createAction2 (fun _ => some [])
        { shopNumericId := some "77", b2b := ⟨none, none, none⟩,
          oc := .payload true none none, dbWriteOk := true }
        (some "Alice") (some "gid://shopify/Customer/5") (some "[]")).outcome =
      .errorResult nothingToOrderMsg (jsOr (some "Alice") "Unknown Customer")
        (jsOr (some "gid://shopify/Customer/5") "")
        (roundTrippedRows (fun _ => some []) (some "[]"))
    ∧ (createAction2 (fun _ => some [])
        { shopNumericId := some "77", b2b := ⟨none, none, none⟩,
          oc := .payload true none none, dbWriteOk := true }
        (some "Alice") (some "gid://shopify/Customer/5") (some "[]")).sent = none
    ∧ Ev.draftOrderCreate ∉ (createAction2 (fun _ => some [])
        { shopNumericId := some "77", b2b := ⟨none, none, none⟩,
          oc := .payload true none none, dbWriteOk := true }
        (some "Alice") (some "gid://shopify/Customer/5") (some "[]")).events
    ∧ Ev.historyWrite ∉ (createAction2 (fun _ => some [])
        { shopNumericId := some "77", b2b := ⟨none, none, none⟩,
          oc := .payload true none none, dbWriteOk := true }
        (some "Alice") (some "gid://shopify/Customer/5") (some "[]")).events :=
  c6_amended (fun _ => some [])
    { shopNumericId := some "77", b2b := ⟨none, none, none⟩,
      oc := .payload true none none, dbWriteOk := true }
    (some "Alice") (some "gid://shopify/Customer/5") (some "[]") (by decide)

theorem createAction1_success (jparse : String → Option (List Row)) (env : CreateEnv)
    (cn ci pj : Option String) (d : DraftOrder)
    (hoc : ocCallResult env.oc = .ok d)
    (hne : includedRowsOf (roundTrippedRows jparse pj) ≠ []) :
    createAction1 jparse env cn ci pj =
      { events := [Ev.shopIdLookup, Ev.draftOrderCreate, Ev.historyWrite]
        sent := some
          { shop_id := env.shopNumericId
            customerId := jsOrS (jsOr ci "") ""
            customerName := jsOr cn "Unknown Customer"
            lineItems := lineItemsOf (roundTrippedRows jparse pj)
            note := noteOf (jsOr cn "Unknown Customer") (numericIdOf (jsOrS (jsOr ci "") ""))
            totalQuantity := totalQuantityOf (roundTrippedRows jparse pj) }
        outcome := .redirect (successRedirectUrl d) } := by
  have hlen : ¬ (includedRowsOf (roundTrippedRows jparse pj)).length = 0 := by
    simpa [List.length_eq_zero] using hne
  simp only [createAction1]
  rw [if_neg hlen, hoc]

theorem createAction1_failure (jparse : String → Option (List Row)) (env : CreateEnv)
    (cn ci pj : Option String) (m : String)
    (hoc : ocCallResult env.oc = .error m)
    (hne : includedRowsOf (roundTrippedRows jparse pj) ≠ []) :
    createAction1 jparse env cn ci pj =
      { events := [Ev.shopIdLookup, Ev.draftOrderCreate]
        sent := some
          { shop_id := env.shopNumericId
            customerId := jsOrS (jsOr ci "") ""
            customerName := jsOr cn "Unknown Customer"
            lineItems := lineItemsOf (roundTrippedRows jparse pj)
            note := noteOf (jsOr cn "Unknown Customer") (numericIdOf (jsOrS (jsOr ci "") ""))
            totalQuantity := totalQuantityOf (roundTrippedRows jparse pj) }
        outcome := .errorResult (ocFailureMsg m) (jsOr cn "Unknown Customer")
          (jsOr ci "") (roundTrippedRows jparse pj) } := by
  have hlen : ¬ (includedRowsOf (roundTrippedRows jparse pj)).length = 0 := by
    simpa [List.length_eq_zero] using hne
  simp only [createAction1]
  rw [if_neg hlen, hoc]

theorem createAction2_success (jparse : String → Option (List Row)) (env : CreateEnv)
    (cn ci pj : Option String) (d : DraftOrder)
    (hoc : ocCallResult env.oc = .ok d)
    (hne : includedRowsOf (roundTrippedRows jparse pj) ≠ []) :
    createAction2 jparse env cn ci pj =
      { events := b2bEvents (jsOrS (jsOr ci "") "") ++
          [Ev.shopIdLookup, Ev.draftOrderCreate, Ev.historyWrite]
        sent := some
          { shop_id := env.shopNumericId
            customerId := jsOrS (jsOr ci "") ""
            customerName := jsOr cn "Unknown Customer"
            lineItems := lineItemsOf (roundTrippedRows jparse pj)
            note := noteOf (jsOr cn "Unknown Customer") (numericIdOf (jsOrS (jsOr ci "") ""))
            totalQuantity := totalQuantityOf (roundTrippedRows jparse pj)
            companyId := env.b2b.companyId
            companyLocationId := env.b2b.companyLocationId
            companyContactId := env.b2b.companyContactId }
        outcome := .redirect (successRedirectUrl d) } := by
  have hlen : ¬ (includedRowsOf (roundTrippedRows jparse pj)).length = 0 := by
    simpa [List.length_eq_zero] using hne
  simp only [createAction2]
  rw [if_neg hlen, hoc]
  simp

theorem createAction2_failure (jparse : String → Option (List Row)) (env : CreateEnv)
    (cn ci pj : Option String) (m : String)
    (hoc : ocCallResult env.oc = .error m)
    (hne : includedRowsOf (roundTrippedRows jparse pj) ≠ []) :
    createAction2 jparse env cn ci pj =
      { events := b2bEvents (jsOrS (jsOr ci "") "") ++ [Ev.shopIdLookup, Ev.draftOrderCreate]
        sent := some
          { shop_id := env.shopNumericId
            customerId := jsOrS (jsOr ci "") ""
            customerName := jsOr cn "Unknown Customer"
            lineItems := lineItemsOf (roundTrippedRows jparse pj)
            note := noteOf (jsOr cn "Unknown Customer") (numericIdOf (jsOrS (jsOr ci "") ""))
            totalQuantity := totalQuantityOf (roundTrippedRows jparse pj)
            companyId := env.b2b.companyId
            companyLocationId := env.b2b.companyLocationId
            companyContactId := env.b2b.companyContactId }
        outcome := .errorResult (ocFailureMsg m) (jsOr cn "Unknown Customer")
          (jsOr ci "") (roundTrippedRows jparse pj) } := by
  have hlen : ¬ (includedRowsOf (roundTrippedRows jparse pj)).length = 0 := by
    simpa [List.length_eq_zero] using hne
  simp only [createAction2]
  rw [if_neg hlen, hoc]
  simp

theorem count_historyWrite_pre3 (g : String) :
    (b2bEvents g ++ [Ev.shopIdLookup, Ev.draftOrderCreate, Ev.historyWrite]).count
      Ev.historyWrite = 1 := by
  by_cases hg : g = "" <;> simp [b2bEvents, hg]

theorem not_mem_b2bPre2 (g : String) (e : Ev) (h1 : e ≠ Ev.b2bLookup)
    (h2 : e ≠ Ev.shopIdLookup) (h3 : e ≠ Ev.draftOrderCreate) :
    e ∉ b2bEvents g ++ [Ev.shopIdLookup, Ev.draftOrderCreate] := by
  by_cases hg : g = "" <;> simp [b2bEvents, hg, h1, h2, h3]

/-- An includable concrete row used by witnesses of the confirm
workflow. -/
def okRow : Row :=
  { sku := "ABC123"
    productName := "Widget"
    exist := true
    availableQuantity := 5
    quantityRequested := 3
    fulfilledQuantity := 3
    status := "ok"
    variantId := some "gid://shopify/ProductVariant/1" }

/-- A concrete created draft-order descriptor. -/
def draft24 : DraftOrder :=
  { id := "gid://shopify/DraftOrder/9"
    legacyResourceId := some "9"
    name := some "#24" }

/-- A concrete environment whose order call succeeds but whose history
write throws. -/
def env7 : CreateEnv :=
  { shopNumericId := some "77"
    b2b := ⟨none, none, none⟩
    oc := .payload true (some draft24) none
    dbWriteOk := false }

/-- The concrete JSON-parse oracle returning one includable row. -/
def jparse7 : String → Option (List Row) := fun _ => some [okRow]

/-- Claim C7: when the order-creation call succeeds, both versions
attempt exactly one history-store write, and — for either value of the
write's success — the confirm still returns the success redirect
carrying the created order's label. -/
theorem c7_history_failure_swallowed (jparse : String → Option (List Row)) (env : CreateEnv)
    (cn ci pj : Option String) (d : DraftOrder)
    (hoc : ocCallResult env.oc = .ok d)
    (hne : includedRowsOf (roundTrippedRows jparse pj) ≠ []) :
    (createAction1 jparse env cn ci pj).events.count Ev.historyWrite = 1
    ∧ (createAction1 jparse env cn ci pj).outcome = .redirect (successRedirectUrl d)
    ∧ (createAction2 jparse env cn ci pj).events.count Ev.historyWrite = 1
    ∧ (createAction2 jparse env cn ci pj).outcome = .redirect (successRedirectUrl d) := by
  rw [createAction1_success jparse env cn ci pj d hoc hne,
    createAction2_success jparse env cn ci pj d hoc hne]
  exact ⟨rfl, rfl, count_historyWrite_pre3 _, rfl⟩

/-- Witness for C7: a concrete successful confirm whose history write
throws (`dbWriteOk = false`), still redirecting with the order's
label. -/
theorem c7_history_failure_swallowed_witness :
    (createAction1 jparse7 env7
        (some "Alice") (some "gid://shopify/Customer/5") (some "[rows]")).events.count
      Ev.historyWrite = 1
    ∧ (createAction1 jparse7 env7
        (some "Alice") (some "gid://shopify/Customer/5") (some "[rows]")).outcome =
      .redirect (successRedirectUrl draft24)
    ∧ (createAction2 jparse7 env7
        (some "Alice") (some "gid://shopify/Customer/5") (some "[rows]")).events.count
      Ev.historyWrite = 1
    ∧ (createAction2 jparse7 env7
        (some "Alice") (some "gid://shopify/Customer/5") (some "[rows]")).outcome =
      .redirect (successRedirectUrl draft24) :=
  c7_history_failure_swallowed jparse7 env7
    (some "Alice") (some "gid://shopify/Customer/5") (some "[rows]")
    draft24 rfl (by decide)

/-- Claim C8: when the order-creation call fails — a thrown fetch, a
non-2xx transport status, an unparsable body, or a body without a
success flag and draft-order descriptor — both versions return the
external-service error carrying the round-tripped rows unchanged, and
no history write is attempted. -/
theorem c8_external_error_keeps_rows (jparse : String → Option (List Row)) (env : CreateEnv)
    (cn ci pj : Option String) (m : String)
    (hoc : ocCallResult env.oc = .error m)
    (hne : includedRowsOf (roundTrippedRows jparse pj) ≠ []) :
    (createAction1 jparse env cn ci pj).outcome =
      .errorResult (ocFailureMsg m) (jsOr cn "Unknown Customer")
        (jsOr ci "") (roundTrippedRows jparse pj)
    ∧ Ev.historyWrite ∉ (createAction1 jparse env cn ci pj).events
    ∧ (createAction2 jparse env cn ci pj).outcome =
      .errorResult (ocFailureMsg m) (jsOr cn "Unknown Customer")
        (jsOr ci "") (roundTrippedRows jparse pj)
    ∧ Ev.historyWrite ∉ (createAction2 jparse env cn ci pj).events
    ∧ (∀ status statusText, ∃ m2,
        ocCallResult (.httpError status statusText) = .error m2)
    ∧ (∀ mj, ocCallResult (.invalidJson mj) = .error mj)
    ∧ (∀ dr e, ∃ m2, ocCallResult (.payload false dr e) = .error m2)
    ∧ (∀ e, ∃ m2, ocCallResult (.payload true none e) = .error m2)
    ∧ (∀ mf, ocCallResult (.fetchThrew mf) = .error mf) := by
  rw [createAction1_failure jparse env cn ci pj m hoc hne,
    createAction2_failure jparse env cn ci pj m hoc hne]
  refine ⟨rfl, by simp, rfl, ?_, ?_, fun mj => rfl, ?_, ?_, fun mf => rfl⟩
  · exact not_mem_b2bPre2 _ _ (by decide) (by decide) (by decide)
  · exact fun status statusText => ⟨_, rfl⟩
  · exact fun dr e => ⟨_, rfl⟩
  · exact fun e => ⟨_, rfl⟩

/-- A concrete environment whose order call fails with a non-2xx
transport status. -/
def env8 : CreateEnv :=
  { shopNumericId := some "77"
    b2b := ⟨none, none, none⟩
    oc := .httpError 500 "Server Error"
    dbWriteOk := true }

/-- Witness for C8: a concrete confirm whose order call returns HTTP
500, keeping the round-tripped row unchanged in the error outcome. -/
theorem c8_external_error_keeps_rows_witness :
    (createAction1 jparse7 env8
        (some "Alice") (some "gid://shopify/Customer/5") (some "[rows]")).outcome =
      .errorResult (ocFailureMsg "OC HTTP error 500 Server Error")
        (jsOr (some "Alice") "Unknown Customer")
        (jsOr (some "gid://shopify/Customer/5") "")
        (roundTrippedRows jparse7 (some "[rows]"))
    ∧ Ev.historyWrite ∉ (createAction1 jparse7 env8
        (some "Alice") (some "gid://shopify/Customer/5") (some "[rows]")).events
    ∧ (createAction2 jparse7 env8
        (some "Alice") (some "gid://shopify/Customer/5") (some "[rows]")).outcome =
      .errorResult (ocFailureMsg "OC HTTP error 500 Server Error")
        (jsOr (some "Alice") "Unknown Customer")
        (jsOr (some "gid://shopify/Customer/5") "")
        (roundTrippedRows jparse7 (some "[rows]"))
    ∧ Ev.historyWrite ∉ (createAction2 jparse7 env8
        (some "Alice") (some "gid://shopify/Customer/5") (some "[rows]")).events
    ∧ (∀ status statusText, ∃ m2,
        ocCallResult (.httpError status statusText) = .error m2)
    ∧ (∀ mj, ocCallResult (.invalidJson mj) = .error mj)
    ∧ (∀ dr e, ∃ m2, ocCallResult (.payload false dr e) = .error m2)
    ∧ (∀ e, ∃ m2, ocCallResult (.payload true none e) = .error m2)
    ∧ (∀ mf, ocCallResult (.fetchThrew mf) = .error mf) :=
  c8_external_error_keeps_rows jparse7 env8
    (some "Alice") (some "gid://shopify/Customer/5") (some "[rows]")
    "OC HTTP error 500 Server Error" rfl (by decide)

/-! ### Claim C9 -/

theorem foldl_add_nonneg (levels : List (Option InventoryLevel)) :
    ∀ a : Int, (∀ l ∈ levels, 0 ≤ levelAvail l) → 0 ≤ a →
      0 ≤ levels.foldl (fun acc l => acc + levelAvail l) a := by
  induction levels with
  | nil =>
    intro a _ ha
    simpa using ha
  | cons l rest ih =>
    intro a h ha
    simp only [List.foldl_cons]
    refine ih (a + levelAvail l) (fun x hx => h x (by simp [hx])) ?_
    have hl := h l (by simp)
    omega

theorem totalAvailable_nonneg (levels : List (Option InventoryLevel))
    (h : ∀ l ∈ levels, 0 ≤ levelAvail l) : 0 ≤ totalAvailableOf levels :=
  foldl_add_nonneg levels 0 h le_rfl

theorem reconciledInvariant_cleared (r : Row) (hq : 0 ≤ r.quantityRequested)
    (hav : r.availableQuantity = 0) (hf : r.fulfilledQuantity = 0) :
    reconciledInvariant r := by
  refine ⟨by omega, by omega, ?_, fun h0 => absurd h0 (by omega)⟩
  rw [hf, hav]
  exact le_min hq le_rfl

theorem reconciledInvariant_matched (r : Row) (v : VariantNode)
    (hreq : 0 < r.quantityRequested)
    (hav : 0 ≤ totalAvailableOf v.inventoryLevels) :
    reconciledInvariant (matchedRow r v) := by
  have h1 : (matchedRow r v).availableQuantity = totalAvailableOf v.inventoryLevels := rfl
  have h2 : (matchedRow r v).quantityRequested = r.quantityRequested := rfl
  have h3 : (matchedRow r v).exist = true := rfl
  have h4 : (matchedRow r v).fulfilledQuantity =
      (if totalAvailableOf v.inventoryLevels ≤ 0 then 0
       else if r.quantityRequested > totalAvailableOf v.inventoryLevels then
         totalAvailableOf v.inventoryLevels
       else r.quantityRequested) := rfl
  have h5 : (matchedRow r v).status =
      (if totalAvailableOf v.inventoryLevels ≤ 0 then "no stock"
       else if r.quantityRequested > totalAvailableOf v.inventoryLevels then "partial"
       else "ok") := rfl
  unfold reconciledInvariant
  rw [h1, h2, h3, h4, h5]
  split_ifs with ha hb
  · exact ⟨hav, le_rfl, le_min (by omega) hav, fun h0 => absurd h0 (by omega)⟩
  · refine ⟨hav, by omega, ?_, fun h0 => ⟨rfl, Or.inr rfl⟩⟩
    rw [min_eq_right (by omega : totalAvailableOf v.inventoryLevels ≤ r.quantityRequested)]
  · refine ⟨hav, by omega, ?_, fun h0 => ⟨rfl, Or.inl rfl⟩⟩
    rw [min_eq_left (by omega : r.quantityRequested ≤ totalAvailableOf v.inventoryLevels)]

/-- A concrete variant whose single location reports a negative
available quantity. -/
def vNeg : VariantNode :=
  { id := "gid://shopify/ProductVariant/2"
    displayName := some "Widget"
    productTitle := none
    inventoryLevels := [some { quantities := [{ name := "available", quantity := some (-3) }] }] }

/-- Claim C9 as stated is false: the reconciler sums whatever numbers
the catalog reports, so a negative per-location available quantity
yields a negative `availableQuantity`, violating both the
non-negativity and the `fulfilledQuantity ≤ min` bounds of the claimed
invariant. -/
theorem c9_counterexample :
    (enrichRow1 (pendingRow "ABC123" 2)
        (.response { errors := [], edges := [some vNeg] })).availableQuantity = -3
    ∧ ¬ reconciledInvariant (enrichRow1 (pendingRow "ABC123" 2)
        (.response { errors := [], edges := [some vNeg] })) := by
  refine ⟨rfl, ?_⟩
  intro h
  obtain ⟨h1, -, -, -⟩ := h
  have hav : (enrichRow1 (pendingRow "ABC123" 2)
      (.response { errors := [], edges := [some vNeg] })).availableQuantity = -3 := rfl
  rw [hav] at h1
  omega

/-- Claim C9 amended: provided the requested quantity is positive (as
the parser guarantees) and every per-location available quantity the
lookup returned is non-negative, every reconciled row satisfies the
invariant — `availableQuantity ≥ 0`, `0 ≤ fulfilledQuantity ≤
min(quantityRequested, availableQuantity)`, and a positive fulfilled
quantity forces `exist` with an ok or partial status; on a successful
match `availableQuantity` is exactly the per-location sum. -/
theorem c9_amended (r : Row) (out : LookupOutcome)
    (hreq : 0 < r.quantityRequested)
    (hlvl : ∀ l ∈ lookupLevels out, 0 ≤ levelAvail l) :
    reconciledInvariant (enrichRow1 r out)
    ∧ reconciledInvariant (enrichRow2 r out)
    ∧ ∀ (v : VariantNode) (es : List (Option VariantNode)),
        (enrichRow1 r (.response { errors := [], edges := some v :: es })).availableQuantity
          = totalAvailableOf v.inventoryLevels := by
  have hq : 0 ≤ r.quantityRequested := le_of_lt hreq
  have hclear1 : reconciledInvariant (errorRow r) :=
    reconciledInvariant_cleared (errorRow r) hq rfl rfl
  have hclear2 : reconciledInvariant (skuNotFoundRow r) :=
    reconciledInvariant_cleared (skuNotFoundRow r) hq rfl rfl
  refine ⟨?_, ?_, fun v es => rfl⟩
  · cases out with
    | threw => exact hclear1
    | response resp =>
      obtain ⟨errs, edges⟩ := resp
      by_cases he : errs = []
      · subst he
        cases edges with
        | nil => exact hclear2
        | cons vopt rest =>
          cases vopt with
          | none => exact hclear2
          | some v =>
            exact reconciledInvariant_matched r v hreq
              (totalAvailable_nonneg _ (fun l hl => hlvl l hl))
      · have heq : enrichRow1 r (.response ⟨errs, edges⟩) = errorRow r := by
          simp only [enrichRow1]
          rw [if_pos he]
        rw [heq]
        exact hclear1
  · cases out with
    | threw => exact hclear1
    | response resp =>
      obtain ⟨errs, edges⟩ := resp
      cases edges with
      | nil => exact hclear2
      | cons vopt rest =>
        cases vopt with
        | none => exact hclear2
        | some v =>
          exact reconciledInvariant_matched r v hreq
            (totalAvailable_nonneg _ (fun l hl => hlvl l hl))

/-- A concrete variant whose single location reports five available. -/
def vPos : VariantNode :=
  { id := "gid://shopify/ProductVariant/3"
    displayName := some "Widget - Default Title"
    productTitle := some "Widget"
    inventoryLevels := [some { quantities := [{ name := "available", quantity := some 5 }] }] }

/-- Witness for C9 amended, at a concrete matched row with
non-negative stock. -/
theorem c9_amended_witness :
    reconciledInvariant (enrichRow1 (pendingRow "ABC123" 2)
      (.response { errors := [], edges := [some vPos] }))
    ∧ reconciledInvariant (enrichRow2 (pendingRow "ABC123" 2)
      (.response { errors := [], edges := [some vPos] }))
    ∧ ∀ (v : VariantNode) (es : List (Option VariantNode)),
        (enrichRow1 (pendingRow "ABC123" 2)
          (.response { errors := [], edges := some v :: es })).availableQuantity
          = totalAvailableOf v.inventoryLevels :=
  c9_amended (pendingRow "ABC123" 2)
    (.response { errors := [], edges := [some vPos] })
    (by decide) (by decide)

/-! ### Claim C10 -/

/-- Claim C10: a missing, empty, or unparsable `previewJson` is
swallowed: the round-tripped row set is empty, and in both versions the
confirm returns the nothing-to-order error without posting to the
order service and without touching the history store. -/
theorem c10_bad_previewjson (jparse : String → Option (List Row)) (env : CreateEnv)
    (cn ci : Option String) (s : String) (pj : Option String)
    (h : pj = none ∨ pj = some "" ∨ (pj = some s ∧ jparse s = none)) :
    roundTrippedRows jparse pj = []
    ∧ (createAction1 jparse env cn ci pj).outcome =
      .errorResult nothingToOrderMsg (jsOr cn "Unknown Customer") (jsOr ci "") []
    ∧ (createAction1 jparse env cn ci pj).sent = none
    ∧ Ev.draftOrderCreate ∉ (createAction1 jparse env cn ci pj).events
    ∧ Ev.historyWrite ∉ (createAction1 jparse env cn ci pj).events
    ∧ (createAction2 jparse env cn ci pj).outcome =
      .errorResult nothingToOrderMsg (jsOr cn "Unknown Customer") (jsOr ci "") []
    ∧ (createAction2 jparse env cn ci pj).sent = none
    ∧ Ev.draftOrderCreate ∉ (createAction2 jparse env cn ci pj).events
    ∧ Ev.historyWrite ∉ (createAction2 jparse env cn ci pj).events := by
  have hrt : roundTrippedRows jparse pj = [] := by
    rcases h with h | h | ⟨h, hj⟩
    · rw [h]
      rfl
    · rw [h]
      rfl
    · rw [h]
      simp [roundTrippedRows, hj]
  have hinc : includedRowsOf (roundTrippedRows jparse pj) = [] := by
    rw [hrt]
    rfl
  rw [createAction1_nothing jparse env cn ci pj hinc,
    createAction2_nothing jparse env cn ci pj hinc, hrt]
  refine ⟨rfl, rfl, rfl, by simp, by simp, rfl, rfl, ?_, ?_⟩
  · exact not_mem_b2bPre _ _ (by decide) (by decide)
  · exact not_mem_b2bPre _ _ (by decide) (by decide)

/-- A concrete environment for the C10 witness. -/
def env10 : CreateEnv :=
  { shopNumericId := none
    b2b := ⟨none, none, none⟩
    oc := .fetchThrew "network down"
    dbWriteOk := true }

/-- Witness for C10, at an absent `previewJson` form value. -/
theorem c10_bad_previewjson_witness :
    roundTrippedRows (fun _ => none) none = []
    ∧ (createAction1 (fun _ => none) env10 none none none).outcome =
      .errorResult nothingToOrderMsg (jsOr none "Unknown Customer") (jsOr none "") []
    ∧ (createAction1 (fun _ => none) env10 none none none).sent = none
    ∧ Ev.draftOrderCreate ∉ (createAction1 (fun _ => none) env10 none none none).events
    ∧ Ev.historyWrite ∉ (createAction1 (fun _ => none) env10 none none none).events
    ∧ (createAction2 (fun _ => none) env10 none none none).outcome =
      .errorResult nothingToOrderMsg (jsOr none "Unknown Customer") (jsOr none "") []
    ∧ (createAction2 (fun _ => none) env10 none none none).sent = none
    ∧ Ev.draftOrderCreate ∉ (createAction2 (fun _ => none) env10 none none none).events
    ∧ Ev.historyWrite ∉ (createAction2 (fun _ => none) env10 none none none).events :=
  c10_bad_previewjson (fun _ => none) env10 none none "" none (Or.inl rfl)
